import Mathlib

/-!
Verification of the Game-of-Life animated-SVG generator
(`scripts/generate_svg.py`) and its validator (`scripts/validate_svg.py`).

The Python source is shallowly embedded: matrices are `List (List Nat)`,
Python `int` is `Int`, Python floats that the claims inspect are modelled
as exact rationals, fallible code returns `Except`/`Option`.
-/

namespace JogoDaVida

/-- A contribution/Life matrix: a list of rows of 0/1 cells
(`List[List[int]]` in the source). -/
abbrev Mat := List (List Nat)

/-- Column count as computed in `life_step`:
`cols = len(state[0]) if rows else 0`. -/
def colsOf (state : Mat) : Nat :=
  match state with
  | [] => 0
  | row :: _ => row.length

/-- The guarded cell read inside `life_step.neighbors`:
`if 0 <= rr < rows and 0 <= cc < cols: s += state[rr][cc]`. -/
def boundedCell (state : Mat) (rows cols : Nat) (rr cc : Int) : Nat :=
  if 0 ≤ rr ∧ rr < (rows : Int) ∧ 0 ≤ cc ∧ cc < (cols : Int) then
    (state.getD rr.toNat []).getD cc.toNat 0
  else 0

/-- `neighbors(r, c)` from `life_step`: the double loop over
`dr, dc in (-1, 0, 1)` skipping `(0, 0)`, summing in-bounds cells. -/
def neighbors (state : Mat) (rows cols : Nat) (r c : Int) : Nat :=
  (([-1, 0, 1] : List Int).map (fun dr =>
    (([-1, 0, 1] : List Int).map (fun dc =>
      if dr = 0 ∧ dc = 0 then 0
      else boundedCell state rows cols (r + dr) (c + dc))).sum)).sum

/-- `life_step(state)`: one Conway generation (B3/S23) on a bounded,
non-toroidal grid. Mirrors the nested `for r / for c` construction of
`nxt`. -/
def life_step (state : Mat) : Mat :=
  let rows := state.length
  let cols := colsOf state
  (List.range rows).map fun (r : Nat) =>
    (List.range cols).map fun (c : Nat) =>
      let n := neighbors state rows cols (r : Int) (c : Int)
      if (state.getD r []).getD c 0 = 1 then
        (if n = 2 ∨ n = 3 then 1 else 0)
      else
        (if n = 3 then 1 else 0)

/-- The body of `simulate`'s loop: starting from `cur`, apply `life_step`
`n` times, listing each successive generation
(`for _ in range(steps - 1): cur = life_step(cur); frames.append(cur)`). -/
def iterFrames (cur : Mat) : Nat → List Mat
  | 0 => []
  | n + 1 =>
    let nxt := life_step cur
    nxt :: iterFrames nxt n

/-- `simulate(state, steps)`: `frames = [state]` followed by
`steps - 1` loop iterations. `steps` is a Python `int`, so it may be
zero or negative, in which case `range(steps - 1)` is empty —
modelled by `(steps - 1).toNat`. -/
def simulate (state : Mat) (steps : Int) : List Mat :=
  state :: iterFrames state (steps - 1).toNat

theorem iterFrames_length (n : Nat) : ∀ cur : Mat, (iterFrames cur n).length = n := by
  induction n with
  | zero => intro cur; rfl
  | succ n ih => intro cur; simp [iterFrames, ih]

theorem iterFrames_getElem? (n : Nat) :
    ∀ (cur : Mat) (i : Nat), i < n →
      (iterFrames cur n)[i]? = some (life_step^[i + 1] cur) := by
  induction n with
  | zero => intro cur i h; omega
  | succ n ih =>
    intro cur i h
    cases i with
    | zero => simp [iterFrames]
    | succ j =>
      simp only [iterFrames, List.getElem?_cons_succ]
      rw [ih (life_step cur) j (by omega),
        Function.iterate_succ_apply life_step (j + 1) cur]

/-- **C2.** For every matrix `m` and integer `N ≥ 1`, `simulate m N` returns
exactly `N` frames, frame 0 is `m`, and frame `i` is `life_step` applied
`i` times to `m`. -/
theorem C2_simulate_frames (m : Mat) (N : Int) (hN : 1 ≤ N) :
    (simulate m N).length = N.toNat ∧
    (simulate m N)[0]? = some m ∧
    ∀ i : Nat, i < N.toNat → (simulate m N)[i]? = some (life_step^[i] m) := by
  refine ⟨?_, by simp [simulate], ?_⟩
  · simp only [simulate, List.length_cons, iterFrames_length]
    omega
  · intro i hi
    cases i with
    | zero => simp [simulate]
    | succ j =>
      simp only [simulate, List.getElem?_cons_succ]
      exact iterFrames_getElem? _ m j (by omega)

theorem C2_simulate_frames_witness :
    (1 : Int) ≤ 2 ∧
    ((simulate [[1]] 2).length = (2 : Int).toNat ∧
     (simulate [[1]] 2)[0]? = some [[1]] ∧
     ∀ i : Nat, i < (2 : Int).toNat →
       (simulate [[1]] 2)[i]? = some (life_step^[i] [[1]])) :=
  ⟨by decide, C2_simulate_frames [[1]] 2 (by decide)⟩

/-- **C7.** For every matrix `m` and integer `steps ≤ 1` (including 0 and
negatives), `simulate m steps` does not fail and returns exactly the
one-frame sequence `[m]` (the `range(steps - 1)` loop body never runs). -/
theorem C7_simulate_low_steps (m : Mat) (N : Int) (hN : N ≤ 1) :
    simulate m N = [m] := by
  unfold simulate
  have h : (N - 1).toNat = 0 := by omega
  rw [h]
  rfl

theorem C7_simulate_low_steps_witness :
    (0 : Int) ≤ 1 ∧ simulate [[1]] 0 = [[[1]]] :=
  ⟨by decide, C7_simulate_low_steps [[1]] 0 (by decide)⟩

/-- **C8.** `life_step` on a zero-row matrix, or on a matrix all of whose
rows have zero columns, does not fail: it returns the empty matrix,
respectively the same number of empty rows. -/
theorem C8_life_step_degenerate :
    life_step ([] : Mat) = [] ∧
    ∀ r : Nat, life_step (List.replicate r ([] : List Nat)) = List.replicate r [] := by
  refine ⟨rfl, ?_⟩
  intro r
  cases r with
  | zero => rfl
  | succ n =>
    simp [life_step, colsOf, List.replicate_succ, List.map_const']

/-! ### C1: the Life step rule, stated against a spec-side neighbor count -/

/-- Out-of-bounds-as-zero cell read, following the claim's wording of the
neighbor rule ("treats every position outside the matrix bounds as 0"). -/
def cellAt (state : Mat) (r c : Int) : Nat :=
  if 0 ≤ r ∧ 0 ≤ c then (state.getD r.toNat []).getD c.toNat 0 else 0

/-- The Moore-neighbor count exactly as the claim words it: the sum of the
8 grid-adjacent cells, an out-of-bounds position counting 0. -/
def mooreCount (state : Mat) (r c : Int) : Nat :=
  cellAt state (r - 1) (c - 1) + cellAt state (r - 1) c + cellAt state (r - 1) (c + 1) +
  cellAt state r (c - 1) + cellAt state r (c + 1) +
  cellAt state (r + 1) (c - 1) + cellAt state (r + 1) c + cellAt state (r + 1) (c + 1)

/-- The matrix is rectangular: every row has the common column count. -/
def Rectangular (state : Mat) : Prop := ∀ row ∈ state, row.length = colsOf state

/-- Every cell of the matrix is 0 or 1. -/
def BinaryMat (state : Mat) : Prop := ∀ row ∈ state, ∀ x ∈ row, x = 0 ∨ x = 1

theorem boundedCell_eq_cellAt (state : Mat) (hrect : Rectangular state) (rr cc : Int) :
    boundedCell state state.length (colsOf state) rr cc = cellAt state rr cc := by
  unfold boundedCell cellAt
  split_ifs with hA hB hC
  · rfl
  · exact absurd ⟨hA.1, hA.2.2.1⟩ hB
  · by_cases hrb : rr.toNat < state.length
    · have hrow : state.getD rr.toNat [] ∈ state := by
        rw [List.getD_eq_getElem _ _ hrb]
        exact List.getElem_mem hrb
      have hlen : (state.getD rr.toNat []).length = colsOf state := hrect _ hrow
      have hcb : ¬ cc < (colsOf state : Int) := fun hc =>
        hA ⟨hC.1, by omega, hC.2, hc⟩
      exact (List.getD_eq_default _ _ (by omega)).symm
    · rw [List.getD_eq_default state _ (by omega)]
      rfl
  · rfl

theorem neighbors_eq_mooreCount (state : Mat) (hrect : Rectangular state) (r c : Int) :
    neighbors state state.length (colsOf state) r c = mooreCount state r c := by
  simp only [neighbors, List.map_cons, List.map_nil, List.sum_cons, List.sum_nil,
    boundedCell_eq_cellAt state hrect, mooreCount]
  norm_num
  simp only [sub_eq_add_neg]
  ring

theorem getD_map_range {α : Type} (f : Nat → α) (n i : Nat) (h : i < n) (d : α) :
    ((List.range n).map f).getD i d = f i := by
  rw [List.getD_eq_getElem _ _ (by simpa using h), List.getElem_map, List.getElem_range]

/-- **C1.** For every rectangular binary matrix and every in-bounds cell
`(r, c)`, `life_step` returns a matrix with a 1 at `(r, c)` iff either the
input cell is 1 and its Moore-neighbor count is 2 or 3, or the input cell
is 0 and the count is 3, where the count sums the 8 grid-adjacent cells
and treats out-of-bounds positions as 0 (no wraparound). -/
theorem C1_life_step_rule (state : Mat) (hrect : Rectangular state)
    (hbin : BinaryMat state) (r c : Nat)
    (hr : r < state.length) (hc : c < colsOf state) :
    ((life_step state).getD r []).getD c 0 = 1 ↔
      ((state.getD r []).getD c 0 = 1 ∧
        (mooreCount state r c = 2 ∨ mooreCount state r c = 3)) ∨
      ((state.getD r []).getD c 0 = 0 ∧ mooreCount state r c = 3) := by
  have hrow : state.getD r [] ∈ state := by
    rw [List.getD_eq_getElem _ _ hr]
    exact List.getElem_mem hr
  have hlen : (state.getD r []).length = colsOf state := hrect _ hrow
  have hcell : (state.getD r []).getD c 0 = 0 ∨ (state.getD r []).getD c 0 = 1 := by
    have hclen : c < (state.getD r []).length := by omega
    rw [List.getD_eq_getElem _ _ hclen]
    exact hbin _ hrow _ (List.getElem_mem hclen)
  have hstep : ((life_step state).getD r []).getD c 0 =
      (if (state.getD r []).getD c 0 = 1 then
        (if neighbors state state.length (colsOf state) r c = 2 ∨
            neighbors state state.length (colsOf state) r c = 3 then 1 else 0)
       else (if neighbors state state.length (colsOf state) r c = 3 then 1 else 0)) := by
    simp only [life_step]
    rw [getD_map_range _ _ _ hr, getD_map_range _ _ _ hc]
  rw [hstep, neighbors_eq_mooreCount state hrect]
  rcases hcell with h | h <;> rw [h] <;> split_ifs with hn h2 <;> simp_all

theorem C1_life_step_rule_witness :
    (Rectangular [[1, 1], [1, 0]] ∧ BinaryMat [[1, 1], [1, 0]] ∧
      0 < ([[1, 1], [1, 0]] : Mat).length ∧ 0 < colsOf [[1, 1], [1, 0]]) ∧
    ((((life_step [[1, 1], [1, 0]]).getD 0 []).getD 0 0 = 1) ↔
      ((([[1, 1], [1, 0]] : Mat).getD 0 []).getD 0 0 = 1 ∧
        (mooreCount [[1, 1], [1, 0]] 0 0 = 2 ∨ mooreCount [[1, 1], [1, 0]] 0 0 = 3)) ∨
      ((([[1, 1], [1, 0]] : Mat).getD 0 []).getD 0 0 = 0 ∧
        mooreCount [[1, 1], [1, 0]] 0 0 = 3)) :=
  ⟨⟨by unfold Rectangular; decide, by unfold BinaryMat; decide, by decide, by decide⟩,
    C1_life_step_rule [[1, 1], [1, 0]] (by unfold Rectangular; decide)
      (by unfold BinaryMat; decide) 0 0 (by decide) (by decide)⟩

/-! ### ImageValidator (`scripts/validate_svg.py`) -/

/-- An XML element tree as `xml.etree.ElementTree` presents it to
`validate_svg.main`: a tag string (a namespace-qualified tag carries the
URI in braces before the local name), an attribute list, and child
elements. A whole document is `Option XElem`: `none` models a file that
fails to parse as well-formed markup. -/
inductive XElem where
  | mk (tag : String) (attrs : List (String × String)) (children : List XElem)

def XElem.tag : XElem → String
  | .mk t _ _ => t

def XElem.attrs : XElem → List (String × String)
  | .mk _ a _ => a

def XElem.children : XElem → List XElem
  | .mk _ _ c => c

mutual

/-- All tags of the subtree rooted at an element, in document order —
what `[elem.tag for elem in root.iter()]` traverses. -/
def XElem.allTags : XElem → List String
  | .mk t _ cs => t :: allTagsList cs

def allTagsList : List XElem → List String
  | [] => []
  | e :: es => XElem.allTags e ++ allTagsList es

end

/-- Python's `str.lower()` (ASCII case folding suffices here). -/
def pyLower (s : String) : String := String.mk (s.data.map Char.toLower)

/-- Python's `str.endswith(p)`. -/
def strEndsWith (s p : String) : Bool := p.data.isSuffixOf s.data

/-- Python's `tag.split(closing-brace)[-1]`: the part of the tag after the
last closing brace, i.e. the namespace-free local name. -/
def localName (s : String) : String :=
  String.mk ((s.data.reverse.takeWhile (fun ch => ch ≠ Char.ofNat 125)).reverse)

/-- `ElementTree.Element.get`: first attribute with the given name. -/
def getAttr : List (String × String) → String → Option String
  | [], _ => none
  | (k, v) :: rest, name => if k = name then some v else getAttr rest name

/-- Python truthiness test `not w` for an optional string: true when the
attribute is absent or its value is the empty string. -/
def pyFalsy : Option String → Bool
  | none => true
  | some s => s == ""

/-- `validate_svg.main`, from the successfully-or-not parsed document to
the process exit code. `none` stands for a parse failure (exit 2); the
root-tag test is `root.tag.lower().endswith` of the root-type name; the
width/height test is Python-falsy (`not w or not h`); the animation test
looks for the local tag name `animate` anywhere in the tree. -/
def validate_main (doc : Option XElem) : Nat :=
  match doc with
  | none => 2
  | some root =>
    if strEndsWith (pyLower root.tag) "svg" then
      if pyFalsy (getAttr root.attrs "width") || pyFalsy (getAttr root.attrs "height") then 3
      else if (root.allTags.map localName).contains "animate" then 0
      else 5
    else 4

/-- The validator contract exactly as claim C3 words it, for comparison:
exit 4 when the root's local tag name (namespace ignored) is not the
vector-image root type, exit 3 when a width or height attribute is
absent, exit 5 when no animation-capable element exists, else 0. -/
def claimValidate (doc : Option XElem) : Nat :=
  match doc with
  | none => 2
  | some root =>
    if pyLower (localName root.tag) ≠ "svg" then 4
    else if getAttr root.attrs "width" = none ∨ getAttr root.attrs "height" = none then 3
    else if ¬ ((root.allTags.map localName).contains "animate" = true) then 5
    else 0

/-- A well-formed document whose root element is named `notsvg` (not the
vector-image root type by local name), with width, height and an animate
child. -/
def c3doc : XElem :=
  .mk "notsvg" [("width", "10"), ("height", "10")] [.mk "animate" [] []]

/-- **C3 counterexample.** On a parseable document whose root local tag
name is `notsvg`, the claim requires exit code 4, but `validate_main`
accepts the root (because `"notsvg".lower().endswith("svg")` is true) and
returns 0. -/
theorem C3_counterexample :
    validate_main (some c3doc) = 0 ∧ claimValidate (some c3doc) = 4 := by
  constructor <;> rfl

/-- **C3 (amended).** `validate` returns 2 exactly on a parse failure;
otherwise 4 exactly when the lowercased root tag does not *end with*
`svg` (a suffix test, which ignores namespace prefixes but also accepts
tags like `notsvg`); otherwise 3 exactly when the root's width or height
attribute is missing or empty; otherwise 5 exactly when no element with
local tag name `animate` exists in the tree; and 0 otherwise. -/
theorem C3_validator_exit_codes (root : XElem) :
    validate_main none = 2 ∧
    validate_main (some root) ≠ 2 ∧
    (validate_main (some root) = 4 ↔ ¬ strEndsWith (pyLower root.tag) "svg" = true) ∧
    (validate_main (some root) = 3 ↔ strEndsWith (pyLower root.tag) "svg" = true ∧
      (pyFalsy (getAttr root.attrs "width") = true ∨
       pyFalsy (getAttr root.attrs "height") = true)) ∧
    (validate_main (some root) = 5 ↔ strEndsWith (pyLower root.tag) "svg" = true ∧
      ¬ (pyFalsy (getAttr root.attrs "width") = true ∨
         pyFalsy (getAttr root.attrs "height") = true) ∧
      ¬ ((root.allTags.map localName).contains "animate" = true)) ∧
    (validate_main (some root) = 0 ↔ strEndsWith (pyLower root.tag) "svg" = true ∧
      ¬ (pyFalsy (getAttr root.attrs "width") = true ∨
         pyFalsy (getAttr root.attrs "height") = true) ∧
      ((root.allTags.map localName).contains "animate" = true)) := by
  rw [show validate_main (some root) =
      (if strEndsWith (pyLower root.tag) "svg" then
        if pyFalsy (getAttr root.attrs "width") || pyFalsy (getAttr root.attrs "height") then 3
        else if (root.allTags.map localName).contains "animate" then 0
        else 5
      else 4) from rfl]
  refine ⟨rfl, ?_, ?_, ?_, ?_, ?_⟩
  all_goals split_ifs with h1 h2 h3 <;> simp_all

/-! ### GridFetcher (`fetch_contributions_matrix`, the scraping loop) -/

/-- A leaf `rect` element as the fetch loop reads it: its `y`,
`data-count` and `data-level` attributes (`none` = absent). Equality is
structural, matching BeautifulSoup tag equality (two tags compare equal
iff they render identically); the C4 counterexample uses attribute-wise
distinct rects, for which structural and identity equality agree. -/
structure SRect where
  y : Option String
  dataCount : Option String
  dataLevel : Option String
deriving DecidableEq

/-- The Python exceptions the fetch loop can let escape. -/
inductive PyErr where
  | indexError
  | valueError
  | runtimeError (msg : String)
deriving DecidableEq

/-- Value of a run of decimal digit characters. -/
def digitsVal (cs : List Char) : Nat :=
  cs.foldl (fun a ch => a * 10 + (ch.toNat - 48)) 0

/-- Split a character list at every dot, keeping empty segments. -/
def splitOnDot : List Char → List (List Char)
  | [] => [[]]
  | ch :: t =>
    let rest := splitOnDot t
    if ch = '.' then [] :: rest
    else
      match rest with
      | [] => [[ch]]
      | p :: ps => (ch :: p) :: ps

/-- Models Python `int(float(s))` on decimal literals `[sign]digits[.digits]`:
truncation toward zero keeps the sign and the integer-part digits.
Returns `none` when `float(s)` would raise (so also when `s` stands for a
missing attribute-free call such as `float(None)`). Exponent, infinity
and whitespace float forms are not modelled; no claim exercises them. -/
def pyIntOfFloatStr (s : String) : Option Int :=
  let sb : Int × List Char :=
    match s.data with
    | ch :: t =>
      if ch = '-' then (-1, t)
      else if ch = '+' then (1, t)
      else (1, s.data)
    | [] => (1, [])
  match splitOnDot sb.2 with
  | [ip] =>
    if ip ≠ [] ∧ ip.all Char.isDigit then some (sb.1 * digitsVal ip) else none
  | [ip, fp] =>
    if (ip ≠ [] ∨ fp ≠ []) ∧ ip.all Char.isDigit ∧ fp.all Char.isDigit then
      some (sb.1 * digitsVal ip)
    else none
  | _ => none

/-- Python `int(x / 10)` for an integer `x` (the quotient is exact in
float at the magnitudes involved): division by 10 truncated toward 0. -/
def truncDiv10 (x : Int) : Int :=
  if x < 0 then -(((-x).toNat / 10 : Nat) : Int) else ((x.toNat / 10 : Nat) : Int)

/-- Python `int(s)` on `[sign]digits`; `none` models the ValueError that
`int` raises on anything else. -/
def pyIntStr (s : String) : Option Int :=
  let sb : Int × List Char :=
    match s.data with
    | ch :: t =>
      if ch = '-' then (-1, t)
      else if ch = '+' then (1, t)
      else (1, s.data)
    | [] => (1, [])
  if sb.2 ≠ [] ∧ sb.2.all Char.isDigit then some (sb.1 * digitsVal sb.2) else none

/-- Python list item assignment `l[i] = v`: a negative index addresses
from the end; an index out of range raises IndexError (`none`). -/
def pySet (l : List Nat) (i : Int) (v : Nat) : Option (List Nat) :=
  let j := if i < 0 then i + l.length else i
  if 0 ≤ j ∧ j < (l.length : Int) then some (l.set j.toNat v) else none

/-- One iteration of the `for rect in rects` body: decode the row index
as `int(int(float(y)) / 10)`, falling back on
`len([r for r in rects if r == rect]) - 1` when that raises; read the
count (`data-count`, else `data-level`, else `"0"`, parsed by `int`);
then `col[yi] = 1 if count > 0 else 0`. -/
def procRect (rects : List SRect) (col : List Nat) (rect : SRect) : Except PyErr (List Nat) :=
  let fallback : Int := ((rects.filter (fun r2 => r2 == rect)).length : Int) - 1
  let yi : Int :=
    match rect.y with
    | none => fallback
    | some ys =>
      match pyIntOfFloatStr ys with
      | some v => truncDiv10 v
      | none => fallback
  match pyIntStr ((rect.dataCount).getD ((rect.dataLevel).getD "0")) with
  | none => Except.error .valueError
  | some count =>
    match pySet col yi (if 0 < count then 1 else 0) with
    | none => Except.error .indexError
    | some col2 => Except.ok col2

/-- The column-extraction and transpose logic of
`fetch_contributions_matrix`, starting from the parsed list of `g`
groups, each listing its `rect` leaves: groups without rects are
skipped; each accepted column starts as `[0] * 7`; zero accepted columns
raise RuntimeError; finally the column-major structure is transposed
into 7 rows, cells beyond a column's captured length defaulting to 0. -/
def fetch_contributions_core (gs : List (List SRect)) : Except PyErr (List (List Nat)) := do
  let columns ← gs.foldlM (fun (acc : List (List Nat)) rects => do
    if rects.isEmpty then
      pure acc
    else
      let col ← rects.foldlM (procRect rects) (List.replicate 7 0)
      pure (acc ++ [col])) ([] : List (List Nat))
  if columns.isEmpty then
    Except.error (.runtimeError "No contribution columns parsed")
  else
    pure ((List.range 7).map fun (r : Nat) =>
      (List.range columns.length).map fun (c : Nat) =>
        if r < (columns.getD c []).length then (columns.getD c []).getD r 0 else 0)

/-- A week group with two attribute-wise distinct day leaves, both
missing the `y` offset attribute. -/
def c4group : List SRect :=
  [⟨none, some "1", none⟩, ⟨none, some "2", none⟩]

/-- **C4 (evaluation at the failing input).** For a group of two distinct
leaves that both lack the `y` attribute, the fallback row is
`len([r for r in rects if r == rect]) - 1 = 0` for *both* leaves, so the
produced matrix marks only row 0 — not the enumeration orders 0 and 1
that the claim (and the source's own `# fallback: enumerate order`
comment) prescribe, which would mark rows 0 and 1. -/
theorem C4_fallback_not_enumeration :
    fetch_contributions_core [c4group] =
      .ok [[1], [0], [0], [0], [0], [0], [0]] := by
  rfl

/-- A day leaf with the given `y` attribute and a positive count. -/
def c10rect (ys : String) : SRect := ⟨some ys, some "1", none⟩

/-- **C10.** The row-position decode is not bounded to the 7-row column
height: a `y` offset of 70 decodes to row index 7 and the column
assignment raises an uncaught IndexError (neither a ParseError nor a
matrix), while offsets decoding to the negative indices −1 .. −7
silently store the cell at rows 6 .. 0 via Python negative indexing. -/
theorem C10_row_decode_unbounded :
    fetch_contributions_core [[c10rect "70"]] = .error .indexError ∧
    fetch_contributions_core [[c10rect "-10"]] =
      .ok [[0], [0], [0], [0], [0], [0], [1]] ∧
    fetch_contributions_core [[c10rect "-20"]] =
      .ok [[0], [0], [0], [0], [0], [1], [0]] ∧
    fetch_contributions_core [[c10rect "-30"]] =
      .ok [[0], [0], [0], [0], [1], [0], [0]] ∧
    fetch_contributions_core [[c10rect "-40"]] =
      .ok [[0], [0], [0], [1], [0], [0], [0]] ∧
    fetch_contributions_core [[c10rect "-50"]] =
      .ok [[0], [0], [1], [0], [0], [0], [0]] ∧
    fetch_contributions_core [[c10rect "-60"]] =
      .ok [[0], [1], [0], [0], [0], [0], [0]] ∧
    fetch_contributions_core [[c10rect "-70"]] =
      .ok [[1], [0], [0], [0], [0], [0], [0]] := by
  refine ⟨rfl, rfl, rfl, rfl, rfl, rfl, rfl, rfl⟩

/-! ### AnimationRenderer (`render_animated_svg`) -/

/-- Rendering style parameters: cell size and gap in pixels, the two fill
colors, and the per-frame duration in seconds (a Python float, modelled
as an exact rational; the claims inspect values, not float formatting). -/
structure Style where
  cell : Int
  gap : Int
  aliveColor : String
  deadColor : String
  frameDuration : Rat

/-- One cell rectangle as the `rect(x, y, fill)` helper emits it
(width and height are the cell size; `rx = ry = 2` are fixed). -/
structure RectElem where
  x : Int
  y : Int
  w : Int
  h : Int
  fill : String

/-- The `animate` element of one per-frame group; numeric fields are kept
at value level. -/
structure AnimateElem where
  attributeName : String
  dur : Rat
  repeatCount : String
  calcMode : String
  keyTimes : List Rat
  values : List String

/-- One per-frame group: its id text, initial inline opacity, alive-cell
rectangles, and opacity animation. -/
structure FrameGroup where
  idStr : String
  opacity : Nat
  cells : List RectElem
  anim : AnimateElem

/-- The rendered document: root dimensions, static background layer, and
the per-frame animated groups. -/
structure SVGDoc where
  width : Int
  height : Int
  bg : List RectElem
  groups : List FrameGroup

/-- Fuel-driven decimal digit emission (fuel `n + 1` always suffices). -/
def natDigitsCore : Nat → Nat → List Char → List Char
  | 0, _, acc => acc
  | fuel + 1, n, acc =>
    let d := Char.ofNat (48 + n % 10)
    if n < 10 then d :: acc else natDigitsCore fuel (n / 10) (d :: acc)

/-- Decimal text of a natural number (Python `str`). -/
def natToStr (n : Nat) : String := String.mk (natDigitsCore (n + 1) n [])

/-- Decimal text of an integer (Python `str`). -/
def intToStr : Int → String
  | .ofNat m => natToStr m
  | .negSucc m => String.mk ('-' :: (natToStr (m + 1)).data)

/-- The body of the `for k, frame in enumerate(frames)` loop: the group
for frame `kf.1` with its alive-cell rectangles, inline opacity 1 only
for frame 0, and the discrete opacity animation (`F` is `len(frames)`,
`total_dur` and the shared `key_times` are precomputed by the caller). -/
def mkFrameGroup (style : Style) (rows cols F : Nat) (total_dur : Rat)
    (key_times : List Rat) (kf : Nat × Mat) : FrameGroup :=
  let g_cells := (List.range rows).flatMap fun (r : Nat) =>
    (List.range cols).filterMap fun (c : Nat) =>
      if (kf.2.getD r []).getD c 0 = 1 then
        some (RectElem.mk ((c : Int) * (style.cell + style.gap))
          ((r : Int) * (style.cell + style.gap)) style.cell style.cell style.aliveColor)
      else none
  let values := (List.range (F + 1)).map fun (i : Nat) =>
    if i = kf.1 then "1" else "0"
  FrameGroup.mk ("f" ++ natToStr kf.1) (if kf.1 = 0 then 1 else 0) g_cells
    (AnimateElem.mk "opacity" total_dur "indefinite" "discrete" key_times values)

/-- The document `render_animated_svg` assembles for a frame list
(meaningful when nonempty): canvas dimensions from frame 0's shape, the
dead-color background grid over every (row, col), and per frame `k` a
group of alive-color cells with a discrete opacity animation over the
shared `len(frames) + 1` key times `i / len(frames)` and per-group
values `1` at index `k`, `0` elsewhere. -/
def renderDoc (frames : List Mat) (style : Style) : SVGDoc :=
  let rows := (frames.getD 0 []).length
  let cols := colsOf (frames.getD 0 [])
  let total_dur : Rat := style.frameDuration * (frames.length : Rat)
  let width := (cols : Int) * (style.cell + style.gap) - style.gap
  let height := (rows : Int) * (style.cell + style.gap) - style.gap
  let rect := fun (x y : Int) (fill : String) =>
    RectElem.mk x y style.cell style.cell fill
  let bg := (List.range rows).flatMap fun (r : Nat) =>
    (List.range cols).map fun (c : Nat) =>
      rect ((c : Int) * (style.cell + style.gap)) ((r : Int) * (style.cell + style.gap))
        style.deadColor
  let key_times := (List.range (frames.length + 1)).map fun (i : Nat) =>
    ((i : Rat) / (frames.length : Rat))
  let groups := frames.enum.map
    (mkFrameGroup style rows cols frames.length total_dur key_times)
  SVGDoc.mk width height bg groups

/-- `render_animated_svg(frames, ...)`: the empty-frames guard is the
first statement and raises ValueError before any document assembly; the
file write in the source happens only after the whole document string is
assembled, so an error result carries no document at all (nothing is
written). -/
def render_animated_svg (frames : List Mat) (style : Style) : Except PyErr SVGDoc :=
  if frames.isEmpty then Except.error .valueError
  else Except.ok (renderDoc frames style)

/-- **C9.** `render` on the empty frame sequence fails with the
ValueError-class error, and no document is produced (so nothing can be
written to the output path). -/
theorem C9_render_empty_frames (style : Style) :
    render_animated_svg [] style = Except.error PyErr.valueError := rfl

/-- Attribute text for a rational value. The source formats these floats
with fixed precision and strips redundant trailing zeros; the validator
never reads these attribute values, so the embedding serializes the
exact rational. -/
def ratAttr (q : Rat) : String := intToStr q.num ++ "/" ++ natToStr q.den

/-- The markup element a cell rectangle denotes. -/
def RectElem.toXElem (rc : RectElem) : XElem :=
  .mk "rect"
    [("x", intToStr rc.x), ("y", intToStr rc.y), ("width", intToStr rc.w),
     ("height", intToStr rc.h), ("rx", "2"), ("ry", "2"), ("fill", rc.fill)] []

/-- The markup element an opacity animation denotes. -/
def AnimateElem.toXElem (a : AnimateElem) : XElem :=
  .mk "animate"
    [("attributeName", a.attributeName), ("dur", ratAttr a.dur ++ "s"),
     ("repeatCount", a.repeatCount), ("calcMode", a.calcMode),
     ("keyTimes", String.intercalate ";" (a.keyTimes.map ratAttr)),
     ("values", String.intercalate ";" a.values)] []

/-- The element a per-frame group denotes: its cell rectangles followed
by its `animate` element. -/
def FrameGroup.toXElem (g : FrameGroup) : XElem :=
  .mk "g" [("id", g.idStr), ("opacity", natToStr g.opacity)]
    (g.cells.map RectElem.toXElem ++ [g.anim.toXElem])

/-- The element tree the emitted document string encodes: the `svg` root
with xmlns/viewBox/width/height attributes, the background group, then
the per-frame groups. -/
def SVGDoc.toXElem (d : SVGDoc) : XElem :=
  .mk "svg"
    [("xmlns", "http://www.w3.org/2000/svg"),
     ("viewBox", "0 0 " ++ intToStr d.width ++ " " ++ intToStr d.height),
     ("width", intToStr d.width), ("height", intToStr d.height)]
    (XElem.mk "g" [("id", "bg")] (d.bg.map RectElem.toXElem) ::
      d.groups.map FrameGroup.toXElem)

theorem natDigitsCore_length (fuel : Nat) :
    ∀ (n : Nat) (acc : List Char), 0 < fuel →
      acc.length < (natDigitsCore fuel n acc).length := by
  induction fuel with
  | zero => intro n acc h; omega
  | succ f ih =>
    intro n acc _
    simp only [natDigitsCore]
    split_ifs
    · simp
    · rcases Nat.eq_zero_or_pos f with h0 | hf
      · subst h0
        simp [natDigitsCore]
      · have h2 := ih (n / 10) (Char.ofNat (48 + n % 10) :: acc) hf
        simp only [List.length_cons] at h2
        omega

theorem natToStr_ne_empty (n : Nat) : natToStr n ≠ "" := by
  intro h
  have hlen : (natToStr n).length = 0 := by rw [h]; rfl
  have h2 := natDigitsCore_length (n + 1) n [] (by omega)
  simp only [natToStr, String.length] at hlen
  simp only [List.length_nil] at h2
  omega

theorem intToStr_ne_empty (i : Int) : intToStr i ≠ "" := by
  cases i with
  | ofNat m => exact natToStr_ne_empty m
  | negSucc m =>
    intro h
    have hlen : (intToStr (Int.negSucc m)).length = 0 := by rw [h]; rfl
    simp only [intToStr, String.length, List.length_cons] at hlen
    omega

theorem mem_allTagsList {t : String} {e : XElem} {es : List XElem}
    (he : e ∈ es) (ht : t ∈ e.allTags) : t ∈ allTagsList es := by
  induction he with
  | head as => exact List.mem_append_left _ ht
  | tail b _ ih => exact List.mem_append_right _ ih

theorem animate_mem_groupTags (g : FrameGroup) : "animate" ∈ g.toXElem.allTags := by
  show "animate" ∈ "g" :: allTagsList (g.cells.map RectElem.toXElem ++ [g.anim.toXElem])
  refine List.mem_cons_of_mem _ ?_
  refine mem_allTagsList (e := g.anim.toXElem) ?_ ?_
  · exact List.mem_append_right _ (List.mem_singleton.mpr rfl)
  · show "animate" ∈ "animate" :: allTagsList []
    exact List.mem_cons_self _ _

/-- **C5.** Round-trip: validating the document produced by `render` from
any non-empty frame sequence (and any style) yields validator exit code
0 — the root element is `svg` with never-empty width/height attribute
text, and each of the (at least one) frame groups contains an `animate`
element. -/
theorem C5_render_validate_roundtrip (f : Mat) (fs : List Mat) (style : Style) :
    validate_main (some (SVGDoc.toXElem (renderDoc (f :: fs) style))) = 0 := by
  have hsome : validate_main (some (SVGDoc.toXElem (renderDoc (f :: fs) style))) =
      (if strEndsWith (pyLower (SVGDoc.toXElem (renderDoc (f :: fs) style)).tag) "svg" then
        if pyFalsy (getAttr (SVGDoc.toXElem (renderDoc (f :: fs) style)).attrs "width") ||
           pyFalsy (getAttr (SVGDoc.toXElem (renderDoc (f :: fs) style)).attrs "height") then 3
        else if (((SVGDoc.toXElem (renderDoc (f :: fs) style)).allTags).map
            localName).contains "animate" then 0
        else 5
      else 4) := rfl
  rw [hsome]
  rw [if_pos (show strEndsWith (pyLower (SVGDoc.toXElem
    (renderDoc (f :: fs) style)).tag) "svg" = true from rfl)]
  have hw : getAttr (SVGDoc.toXElem (renderDoc (f :: fs) style)).attrs "width" =
      some (intToStr (renderDoc (f :: fs) style).width) := rfl
  have hh : getAttr (SVGDoc.toXElem (renderDoc (f :: fs) style)).attrs "height" =
      some (intToStr (renderDoc (f :: fs) style).height) := rfl
  rw [hw, hh]
  have hwf : pyFalsy (some (intToStr (renderDoc (f :: fs) style).width)) = false := by
    simp [pyFalsy, intToStr_ne_empty]
  have hhf : pyFalsy (some (intToStr (renderDoc (f :: fs) style).height)) = false := by
    simp [pyFalsy, intToStr_ne_empty]
  rw [hwf, hhf]
  rw [if_neg (by simp)]
  have hanim : (((SVGDoc.toXElem (renderDoc (f :: fs) style)).allTags).map
      localName).contains "animate" = true := by
    apply List.elem_iff.mpr
    have hmem : "animate" ∈ (SVGDoc.toXElem (renderDoc (f :: fs) style)).allTags := by
      show "animate" ∈ "svg" :: allTagsList _
      refine List.mem_cons_of_mem _ ?_
      have hne : (renderDoc (f :: fs) style).groups ≠ [] := by
        simp [renderDoc, List.enum]
      refine mem_allTagsList
        (e := FrameGroup.toXElem ((renderDoc (f :: fs) style).groups.head hne)) ?_
        (animate_mem_groupTags _)
      refine List.mem_cons_of_mem _ ?_
      exact List.mem_map_of_mem _ (List.head_mem hne)
    have : localName "animate" = "animate" := rfl
    exact this ▸ List.mem_map_of_mem localName hmem
  rw [if_pos hanim]

theorem getElem?_map_range {α : Type} (fn : Nat → α) (n i : Nat) (h : i < n) :
    ((List.range n).map fn)[i]? = some (fn i) := by
  simp [List.getElem?_map, List.getElem?_range h]

/-- **C6.** For every non-empty frame sequence of `F` frames and every
frame index `k < F`, `render` emits one group per frame, and the `k`-th
group carries a discrete-mode (`calcMode="discrete"`) opacity animation
of duration `frame_duration × F` with `repeatCount="indefinite"`, whose
key-time axis has `F + 1` values `i / F` (equally dividing one cycle
from 0 to 1) and whose value sequence has `F + 1` entries equal to `"1"`
exactly at index `k` and `"0"` everywhere else, including the final
index `F`; the group's initial inline opacity is 1 for `k = 0` and 0
otherwise. -/
theorem C6_frame_group_animation (f : Mat) (fs : List Mat) (style : Style)
    (k : Nat) (hk : k < (f :: fs).length) :
    (renderDoc (f :: fs) style).groups.length = (f :: fs).length ∧
    ∃ g : FrameGroup,
      ((renderDoc (f :: fs) style).groups)[k]? = some g ∧
      g.opacity = (if k = 0 then 1 else 0) ∧
      g.anim.attributeName = "opacity" ∧
      g.anim.calcMode = "discrete" ∧
      g.anim.repeatCount = "indefinite" ∧
      g.anim.dur = style.frameDuration * (((f :: fs).length : Nat) : Rat) ∧
      g.anim.keyTimes.length = (f :: fs).length + 1 ∧
      (∀ i : Nat, i < (f :: fs).length + 1 →
        g.anim.keyTimes[i]? = some ((i : Rat) / (((f :: fs).length : Nat) : Rat))) ∧
      g.anim.values.length = (f :: fs).length + 1 ∧
      (∀ i : Nat, i < (f :: fs).length + 1 →
        g.anim.values[i]? = some (if i = k then "1" else "0")) := by
  constructor
  · simp [renderDoc]
  · have hgk : ((renderDoc (f :: fs) style).groups)[k]? =
        some (mkFrameGroup style ((f :: fs).getD 0 []).length
          (colsOf ((f :: fs).getD 0 [])) (f :: fs).length
          (style.frameDuration * (((f :: fs).length : Nat) : Rat))
          ((List.range ((f :: fs).length + 1)).map fun (i : Nat) =>
            ((i : Rat) / (((f :: fs).length : Nat) : Rat)))
          (k, (f :: fs)[k])) := by
      simp [renderDoc, List.getElem?_map, List.getElem?_enum,
        List.getElem?_eq_getElem hk]
    refine ⟨_, hgk, rfl, rfl, rfl, rfl, rfl, by simp [mkFrameGroup], ?_,
      by simp [mkFrameGroup], ?_⟩
    · intro i hi
      exact getElem?_map_range _ _ _ hi
    · intro i hi
      exact getElem?_map_range (fun i => if i = k then "1" else "0") _ _ hi

theorem C6_frame_group_animation_witness :
    0 < ([[[1]]] : List Mat).length ∧
    ((renderDoc [[[1]]] (Style.mk 10 2 "a" "d" 1)).groups.length = ([[[1]]] : List Mat).length ∧
    ∃ g : FrameGroup,
      ((renderDoc [[[1]]] (Style.mk 10 2 "a" "d" 1)).groups)[0]? = some g ∧
      g.opacity = (if 0 = 0 then 1 else 0) ∧
      g.anim.attributeName = "opacity" ∧
      g.anim.calcMode = "discrete" ∧
      g.anim.repeatCount = "indefinite" ∧
      g.anim.dur = (Style.mk 10 2 "a" "d" 1).frameDuration * ((([[[1]]] : List Mat).length : Nat) : Rat) ∧
      g.anim.keyTimes.length = ([[[1]]] : List Mat).length + 1 ∧
      (∀ i : Nat, i < ([[[1]]] : List Mat).length + 1 →
        g.anim.keyTimes[i]? = some ((i : Rat) / ((([[[1]]] : List Mat).length : Nat) : Rat))) ∧
      g.anim.values.length = ([[[1]]] : List Mat).length + 1 ∧
      (∀ i : Nat, i < ([[[1]]] : List Mat).length + 1 →
        g.anim.values[i]? = some (if i = 0 then "1" else "0"))) :=
  ⟨by decide, C6_frame_group_animation [[1]] [] (Style.mk 10 2 "a" "d" 1) 0 (by decide)⟩

end JogoDaVida
